import Mathlib

/-!
Verification of `s3-mp-upload.py` against its natural-language specification.

The Python source is shallowly embedded below. Pure helpers (`chunk_bytes`,
the destination-key resolution, `urlparse.urlsplit` as used by the script)
become Lean functions on `String`/`List Char`; the effectful body of `main`
becomes a function from an explicit environment (bucket probe result, object
probe result, per-attempt upload outcomes) to a trace of observable events
(upload attempts and sleeps) plus a final result (`Except` of a Python-style
error).  Machine integers in the script are Python arbitrary-precision ints,
so `Nat`/`Int` model them exactly.
-/

set_option maxRecDepth 10000

namespace S3MpUpload

/-! ### Python string primitives (ASCII fragment used by the script) -/

/-- Python `str.isspace` character class (ASCII). -/
def pyIsSpace (c : Char) : Bool :=
  c == ' ' || c == '\t' || c == '\n' || c == '\r' || c == '\x0b' || c == '\x0c'

/-- Python `str.isdigit` on a byte string: non-empty and all ASCII digits. -/
def pyIsDigitStr (l : List Char) : Bool :=
  !l.isEmpty && l.all Char.isDigit

/-- Numeric value of an ASCII digit character. -/
def charVal (c : Char) : Nat := c.toNat - 48

/-- Python `int(s)` on a string of ASCII digits (base 10, left to right). -/
def digitsToNat (l : List Char) : Nat :=
  l.foldl (fun a c => a * 10 + charVal c) 0

/-- Python `str.lower` (ASCII). -/
def toLowerStr (s : String) : String := String.mk (s.data.map Char.toLower)

/-- Python `s.endswith(t)`. -/
def pyEndsWith (s t : String) : Bool := List.isSuffixOf t.data s.data

/-- Python `s.startswith(t)`. -/
def pyStartsWith (s t : String) : Bool := List.isPrefixOf t.data s.data

/-! ### Error model

One inductive covers every exception the script can raise or propagate:
`ValueError`, `RuntimeError`, `KeyError` (dict lookup of a missing default
unit), `ClientError` (from the storage client probes), and the opaque
exception raised by upload attempt `i` (`uploadExc i`). -/

inductive PyErr where
  | valueError (msg : String)
  | runtimeError (msg : String)
  | keyError (key : String)
  | clientError (msg : String)
  | uploadExc (attempt : Nat)
deriving Repr, DecidableEq

/-! ### `UNIT_MULTIPLIERS` (source lines 25-60, in source order) -/

def UNIT_MULTIPLIERS : List (String × Nat) := [
  ("byte", 1),
  ("kilobyte", 1000), ("kB", 1000), ("kibibyte", 1024), ("KiB", 1024), ("KB", 1024),
  ("megabyte", 1000^2), ("MB", 1000^2), ("mebibyte", 1024^2), ("MiB", 1024^2),
  ("gigabyte", 1000^3), ("GB", 1000^3), ("gibibyte", 1024^3), ("GiB", 1024^3),
  ("terabyte", 1000^4), ("TB", 1000^4), ("tebibyte", 1024^4), ("TiB", 1024^4),
  ("petabyte", 1000^5), ("PB", 1000^5), ("pebibyte", 1024^5), ("PiB", 1024^5),
  ("exabyte", 1000^6), ("EB", 1000^6), ("exbibyte", 1024^6), ("EiB", 1024^6),
  ("zettabyte", 1000^7), ("ZB", 1000^7), ("zebibyte", 1024^7), ("ZiB", 1024^7),
  ("yottabyte", 1000^8), ("YB", 1000^8), ("yobibyte", 1024^8), ("YiB", 1024^8)]

/-- Python `UNIT_MULTIPLIERS[k]` (as an `Option`; a miss is a `KeyError`). -/
def unitLookup (k : String) : Option Nat :=
  (UNIT_MULTIPLIERS.find? (fun p => p.1 == k)).map Prod.snd

/-- The case-sensitive lookup followed by the case-insensitive scan of
`chunk_bytes` (source lines 112-119).  Returns the matching table key.
The Python scan iterates a dict in unspecified order; we use source order,
which is only observable for tokens whose lowercase form collides with two
table keys (`kB`/`KB`); no theorem below depends on such a token. -/
def findMultiplier (m : String) : Option String :=
  if (UNIT_MULTIPLIERS.find? (fun p => p.1 == m)).isSome then some m
  else (UNIT_MULTIPLIERS.find? (fun p => toLowerStr p.1 == toLowerStr m)).map Prod.fst

/-! ### `DEFAULTS` (source lines 62-70) -/

def DEFAULTS_p_transfers : Nat := 2
def DEFAULTS_max_tries : Int := 10
def DEFAULTS_split : String := "50 MiB"
def DEFAULTS_chunk_threshold : String := "50 MiB"
def DEFAULTS_retry_sleep : Nat := 10

/-! ### The regex `^(\d+)\s*(\S+)?` under `re.match` (source line 94)

`re.match` looks for a prefix match; all three pieces are greedy and the
trailing group is optional, so no backtracking can occur: the match takes
the maximal run of digits, then the maximal run of whitespace, then the
maximal (possibly empty, in which case the group is `None`) run of
non-whitespace. -/

def reMatchChunk (s : List Char) : Option (List Char × Option (List Char)) :=
  let ds := s.takeWhile Char.isDigit
  if ds.isEmpty then none
  else
    let rest := (s.drop ds.length).dropWhile pyIsSpace
    let tok := rest.takeWhile (fun c => !(pyIsSpace c))
    some (ds, if tok.isEmpty then none else some tok)

/-! ### `chunk_bytes` (source lines 72-126) -/

/-- Source lines 108-126: the plural chop, unit lookup, and final multiply
applied to the already-parsed count and unit token. -/
def chunkResolve (chunk_string default_unit : String) (count : Nat)
    (multiplier0 : String) : Except PyErr Nat :=
  let multiplier :=
    if pyEndsWith (toLowerStr multiplier0) "bytes"
    then String.mk multiplier0.data.dropLast
    else multiplier0
  match findMultiplier multiplier with
  | none => .error (.valueError ("Invalid units specified in split string: " ++ chunk_string ++ "!"))
  | some name =>
    match unitLookup default_unit, unitLookup name with
    | some u, some m => .ok (u * (m * count))
    | none, _ => .error (.keyError default_unit)
    | _, none => .error (.keyError name)

def chunk_bytes_full (chunk_string default_unit default_multiplier : String) :
    Except PyErr Nat :=
  if pyIsDigitStr chunk_string.data then
    match unitLookup default_unit, unitLookup default_multiplier with
    | some u, some m => .ok (u * (m * digitsToNat chunk_string.data))
    | none, _ => .error (.keyError default_unit)
    | _, none => .error (.keyError default_multiplier)
  else if chunk_string.data.contains '.' then
    .error (.valueError ("Split string must use whole numbers!: " ++ chunk_string))
  else
    match reMatchChunk chunk_string.data with
    | none => .error (.runtimeError ("Could not parse split string: " ++ chunk_string ++ "!"))
    | some (count_s, multOpt) =>
      let multiplier0 :=
        match multOpt with
        | none => default_multiplier
        | some t => String.mk t
      chunkResolve chunk_string default_unit (digitsToNat count_s) multiplier0

/-- `chunk_bytes` with the default arguments of the Python signature
(`default_unit="byte"`, `default_multiplier="MiB"`); every call in `main`
uses these defaults. -/
def chunk_bytes (chunk_string : String) : Except PyErr Nat :=
  chunk_bytes_full chunk_string "byte" "MiB"

/-! ### `urlparse.urlsplit` (Python 2.7), as called on `dest` in `main`

Faithful to the CPython 2.7 `urlparse.urlsplit` with `allow_fragments=True`
and default scheme `''`: scheme detection (with the `http` fast path and the
port-number guard), `_splitnetloc`, the IPv6 bracket `ValueError`, and the
fragment/query splits which happen only for schemes in `uses_fragment` /
`uses_query` (note `"s3"` is in neither list, so for the script's URLs the
path keeps any `#`/`?`). -/

def scheme_chars : List Char :=
  "abcdefghijklmnopqrstuvwxyzABCDEFGHIJKLMNOPQRSTUVWXYZ0123456789+-.".data

def uses_fragment : List String :=
  ["ftp", "hier_part", "http", "gopher", "nntp", "wais", "https", "shttp", "mms",
   "prospero", "rtsp", "rtspu", "sftp", "svn", "svn+ssh", "file", "imap", ""]

def uses_query : List String :=
  ["http", "wais", "imap", "https", "shttp", "mms", "gopher", "rtsp", "rtspu",
   "sip", "sips", ""]

structure SplitResult where
  scheme : String
  netloc : String
  path : String
  query : String
  fragment : String
deriving Repr, DecidableEq

/-- Python `s.split(c, 1)` when `c` occurs in `s`. -/
def splitAtFirst (c : Char) (s : List Char) : List Char × List Char :=
  let pre := s.takeWhile (· != c)
  (pre, (s.drop pre.length).drop 1)

/-- Netloc extraction, IPv6 guard, and the fragment/query splits that
`urlsplit` performs after the scheme has been settled. -/
def urlsplitRest (scheme : String) (l : List Char) : Except String SplitResult :=
  let netloc :=
    if l.take 2 = ['/', '/'] then
      (l.drop 2).takeWhile (fun c => c != '/' && c != '?' && c != '#')
    else []
  let l1 :=
    if l.take 2 = ['/', '/'] then (l.drop 2).drop netloc.length else l
  if (netloc.contains '[' && !netloc.contains ']') ||
     (netloc.contains ']' && !netloc.contains '[') then
    .error "Invalid IPv6 URL"
  else
    let p1 :=
      if uses_fragment.contains scheme && l1.contains '#' then splitAtFirst '#' l1
      else (l1, [])
    let p2 :=
      if uses_query.contains scheme && p1.1.contains '?' then splitAtFirst '?' p1.1
      else (p1.1, [])
    .ok ⟨scheme, String.mk netloc, String.mk p2.1, String.mk p2.2, String.mk p1.2⟩

def urlsplit (url : String) : Except String SplitResult :=
  let l := url.data
  let pre := l.takeWhile (· != ':')
  if l.contains ':' && !pre.isEmpty then
    let rest := l.drop (pre.length + 1)
    if String.mk pre = "http" then
      urlsplitRest "http" rest
    else if pre.all (fun c => scheme_chars.contains c) then
      if rest.isEmpty || !(rest.all (fun c => '0' ≤ c && c ≤ '9')) then
        urlsplitRest (toLowerStr (String.mk pre)) rest
      else
        urlsplitRest "" l
    else
      urlsplitRest "" l
  else
    urlsplitRest "" l

/-! ### `os.path` helpers (posixpath, Python 2) -/

/-- `os.path.split(p)[1]`: the part of `p` after its last `'/'`. -/
def basename (p : String) : String :=
  String.mk (p.data.reverse.takeWhile (· != '/')).reverse

/-- `os.path.join(a, b)` (posixpath, two arguments). -/
def pyJoin (a b : String) : String :=
  if pyStartsWith b "/" then b
  else if a == "" || pyEndsWith a "/" then a ++ b
  else a ++ "/" ++ b

/-- Python `s.lstrip("/")`: remove every leading `'/'`. -/
def lstripSlash (s : String) : String := String.mk (s.data.dropWhile (· == '/'))

/-- Whether a string begins with the character `'/'`. -/
def beginsWithSlash (s : String) : Bool :=
  match s.data with
  | [] => false
  | c :: _ => c == '/'

/-! ### Destination key resolution (`main`, source lines 192-202) -/

def resolveKey (s3_dest_path srcName : String) : String :=
  if s3_dest_path = "" ∨ s3_dest_path = "/" then basename srcName
  else if pyEndsWith s3_dest_path "/" then pyJoin s3_dest_path (basename srcName)
  else lstripSlash s3_dest_path

/-- The destination-parsing prefix of `main` (source lines 173-202): split
the destination URI, require scheme `"s3"`, and resolve the object key. -/
def mainResolvedKey (dest srcName : String) : Except PyErr String :=
  match urlsplit dest with
  | .error m => .error (.valueError m)
  | .ok parts =>
    if parts.scheme ≠ "s3" then
      .error (.valueError ("Destination needs to be an S3 url!: " ++ dest))
    else
      .ok (resolveKey parts.path srcName)

/-! ### `TransferConfig` (source lines 222-229) -/

structure TransferConfig where
  multipart_threshold : Nat
  multipart_chunksize : Nat
  max_concurrency : Nat
deriving Repr, DecidableEq

/-- The transfer configuration `main` builds: `multipart_threshold` from
`DEFAULTS["chunk_threshold"]` (source line 223) and `multipart_chunksize`
from the caller's `chunk` string (source lines 170 and 224). -/
def mainConfig (chunk : String) (num_processes : Nat) : Except PyErr TransferConfig :=
  match chunk_bytes chunk with
  | .error e => .error e
  | .ok chunk_size =>
    match chunk_bytes DEFAULTS_chunk_threshold with
    | .error e => .error e
    | .ok thr => .ok ⟨thr, chunk_size, num_processes⟩

/-! ### The effectful body of `main` (source lines 147-260)

Observable events are upload attempts and `time.sleep` calls; the
environment supplies the storage client's responses.  `max_tries` is a
Python `int`, so it is an `Int` here and `range(max_tries)` iterates
`max_tries.toNat` times. -/

inductive Event where
  | uploadAttempt (i : Nat)
  | sleep (seconds : Nat)
deriving Repr, DecidableEq

def evSleepDur : Event → Option Nat
  | .sleep d => some d
  | _ => none

/-- Result of the `get_object` existence probe (source lines 205-213). -/
inductive ObjectProbe where
  | keyExists
  | noSuchKey
  | otherError (msg : String)
deriving Repr, DecidableEq

/-- The storage client's responses for one run of `main`. -/
structure Env where
  bucketError : Option String
  objectProbe : ObjectProbe
  uploadFails : Nat → Bool

/-- The retry loop of `main` (source lines 238-260): each iteration makes an
upload attempt; on failure it records the exception, sleeps for the current
interval, doubles the interval, and continues; on success it returns at
once.  After the loop the recorded exception is raised. -/
def retryLoop (fails : Nat → Bool) (attempt remaining interval : Nat) (last : PyErr) :
    List Event × Except PyErr Unit :=
  match remaining with
  | 0 => ([], .error last)
  | r + 1 =>
    if fails attempt then
      let res := retryLoop fails (attempt + 1) r (interval * 2) (.uploadExc attempt)
      (.uploadAttempt attempt :: .sleep interval :: res.1, res.2)
    else
      ([.uploadAttempt attempt], .ok ())

/-- The generic exception pre-built before the retry loop (source line 239). -/
def genericRetryError : PyErr :=
  .runtimeError "Upload and retries failed, but without raising an exception?!"

/-- The transfer phase of `main` (source lines 221-260): build the
`TransferConfig` and run the retry loop.  (`verbose` only installs a
progress callback, which produces no event modelled here.) -/
def uploadPhase (chunk_size num_processes : Nat) (max_tries : Int) (retry_sleep : Nat)
    (fails : Nat → Bool) : List Event × Except PyErr Unit :=
  match chunk_bytes DEFAULTS_chunk_threshold with
  | .error e => ([], .error e)
  | .ok thr =>
    let _config : TransferConfig := ⟨thr, chunk_size, num_processes⟩
    retryLoop fails 0 max_tries.toNat retry_sleep genericRetryError

/-- `main` (source lines 147-260).  Parameters keep the Python names and
order; `reduced_redundancy`, `secure` and `quiet` are accepted and unused,
exactly as in the source. -/
def mainRun (srcName dest : String) (num_processes : Nat) (force : Bool) (chunk : String)
    (reduced_redundancy : Bool) (secure : Bool) (max_tries : Int) (verbose : Bool)
    (quiet : Bool) (retry_sleep : Nat) (env : Env) : List Event × Except PyErr Unit :=
  match chunk_bytes chunk with
  | .error e => ([], .error e)
  | .ok chunk_size =>
    match urlsplit dest with
    | .error m => ([], .error (.valueError m))
    | .ok parts =>
      if parts.scheme ≠ "s3" then
        ([], .error (.valueError ("Destination needs to be an S3 url!: " ++ dest)))
      else
        let s3_bucket := parts.netloc
        let s3_dest_path := parts.path
        match env.bucketError with
        | some m => ([], .error (.clientError m))
        | none =>
          let s3_dest_obj := resolveKey s3_dest_path srcName
          match env.objectProbe with
          | .otherError m => ([], .error (.clientError m))
          | .keyExists =>
            if force then
              uploadPhase chunk_size num_processes max_tries retry_sleep env.uploadFails
            else
              ([], .error (.runtimeError
                (s3_dest_obj ++ " alredy exists in " ++ s3_bucket ++ ". Use --force to overwrite!")))
          | .noSuchKey =>
            uploadPhase chunk_size num_processes max_tries retry_sleep env.uploadFails

/-- The exponential-backoff delay sequence `d, 2d, 4d, …` of length `n`. -/
def backoffDelays (d n : Nat) : List Nat :=
  (List.range n).map (fun i => d * 2 ^ i)

/-! ## Helper lemmas: decimal digit strings and `Nat.repr` -/

theorem digitsToNat_foldl (l : List Char) (acc : Nat) :
    l.foldl (fun a c => a * 10 + charVal c) acc = acc * 10 ^ l.length + digitsToNat l := by
  induction l generalizing acc with
  | nil => simp [digitsToNat]
  | cons c l ih =>
    simp only [List.foldl_cons, digitsToNat, List.length_cons]
    rw [ih (acc * 10 + charVal c), ih (0 * 10 + charVal c)]
    ring

theorem charVal_digitChar (m : Nat) (h : m < 10) : charVal (Nat.digitChar m) = m := by
  interval_cases m <;> rfl

theorem digitsToNat_cons (c : Char) (l : List Char) :
    digitsToNat (c :: l) = charVal c * 10 ^ l.length + digitsToNat l := by
  have h : digitsToNat (c :: l) =
      l.foldl (fun a c => a * 10 + charVal c) (0 * 10 + charVal c) := rfl
  rw [h, digitsToNat_foldl]
  ring

theorem digitsToNat_toDigitsCore (fuel : Nat) :
    ∀ (n : Nat) (ds : List Char), n ≤ fuel →
    digitsToNat (Nat.toDigitsCore 10 fuel n ds) = n * 10 ^ ds.length + digitsToNat ds := by
  induction fuel with
  | zero =>
    intro n ds h
    have hn : n = 0 := Nat.le_zero.mp h
    subst hn
    simp [Nat.toDigitsCore]
  | succ fuel ih =>
    intro n ds h
    rw [Nat.toDigitsCore]
    have hlt : n % 10 < 10 := Nat.mod_lt _ (by norm_num)
    by_cases h0 : n / 10 = 0
    · have hn : n % 10 = n := by omega
      rw [if_pos h0, digitsToNat_cons, charVal_digitChar _ hlt, hn]
    · have hle : n / 10 ≤ fuel := by omega
      rw [if_neg h0, ih (n / 10) (Nat.digitChar (n % 10) :: ds) hle,
          digitsToNat_cons, charVal_digitChar _ hlt]
      simp only [List.length_cons, pow_succ]
      conv_rhs => rw [show n = 10 * (n / 10) + n % 10 from (Nat.div_add_mod n 10).symm]
      ring

theorem digitsToNat_repr (n : Nat) : digitsToNat (Nat.repr n).data = n := by
  show digitsToNat (Nat.toDigits 10 n).asString.data = n
  have : (Nat.toDigits 10 n).asString.data = Nat.toDigits 10 n := rfl
  rw [this, Nat.toDigits, digitsToNat_toDigitsCore (n + 1) n [] (Nat.le_succ n)]
  simp [digitsToNat]

theorem toDigitsCore_all_digits (fuel : Nat) :
    ∀ (n : Nat) (ds : List Char), ds.all Char.isDigit = true →
    (Nat.toDigitsCore 10 fuel n ds).all Char.isDigit = true := by
  induction fuel with
  | zero => intro n ds h; simpa [Nat.toDigitsCore] using h
  | succ fuel ih =>
    intro n ds h
    have hdig : Char.isDigit (Nat.digitChar (n % 10)) = true := by
      have hlt : n % 10 < 10 := Nat.mod_lt _ (by norm_num)
      interval_cases h : n % 10 <;> rfl
    rw [Nat.toDigitsCore]
    by_cases h0 : n / 10 = 0
    · simp [h0, h, hdig]
    · simp only [if_neg h0]
      exact ih (n / 10) _ (by simp [h, hdig])

theorem repr_all_digits (n : Nat) : (Nat.repr n).data.all Char.isDigit = true := by
  show (Nat.toDigits 10 n).asString.data.all Char.isDigit = true
  have : (Nat.toDigits 10 n).asString.data = Nat.toDigits 10 n := rfl
  rw [this, Nat.toDigits]
  exact toDigitsCore_all_digits (n + 1) n [] rfl

theorem toDigitsCore_ne_nil (fuel : Nat) :
    ∀ (n : Nat) (ds : List Char), 1 ≤ fuel ∨ ds ≠ [] →
    Nat.toDigitsCore 10 fuel n ds ≠ [] := by
  induction fuel with
  | zero =>
    intro n ds h
    rcases h with h | h
    · omega
    · simpa [Nat.toDigitsCore] using h
  | succ fuel ih =>
    intro n ds _
    rw [Nat.toDigitsCore]
    by_cases h0 : n / 10 = 0
    · simp [h0]
    · simp only [if_neg h0]
      exact ih (n / 10) _ (Or.inr (by simp))

theorem repr_ne_nil (n : Nat) : (Nat.repr n).data ≠ [] := by
  show (Nat.toDigits 10 n).asString.data ≠ []
  have : (Nat.toDigits 10 n).asString.data = Nat.toDigits 10 n := rfl
  rw [this, Nat.toDigits]
  exact toDigitsCore_ne_nil (n + 1) n [] (Or.inl (by omega))

/-! ## Helper lemmas: the regex on `digits ++ " " ++ unit` inputs -/

theorem reMatchChunk_decomp (ds u : List Char)
    (hne : ds ≠ []) (hd : ds.all Char.isDigit = true)
    (hu1 : u ≠ []) (husp : ∀ c ∈ u, pyIsSpace c = false) :
    reMatchChunk (ds ++ ' ' :: u) = some (ds, some u) := by
  have htake : (ds ++ ' ' :: u).takeWhile Char.isDigit = ds := by
    rw [List.takeWhile_append_of_pos (fun a ha => List.all_eq_true.mp hd a ha)]
    have : (' ' :: u).takeWhile Char.isDigit = [] := by
      rw [List.takeWhile_cons_of_neg]
      decide
    rw [this, List.append_nil]
  have hdrop : (ds ++ ' ' :: u).drop ds.length = ' ' :: u := List.drop_left ds (' ' :: u)
  have hds : ds.isEmpty = false := by
    cases ds with
    | nil => exact absurd rfl hne
    | cons c l => rfl
  have hsp : pyIsSpace ' ' = true := rfl
  have hrest : (' ' :: u).dropWhile pyIsSpace = u := by
    rw [List.dropWhile_cons_of_pos hsp]
    cases u with
    | nil => rfl
    | cons c l =>
      rw [List.dropWhile_cons_of_neg]
      simp [husp c (List.mem_cons_self c l)]
  have htu : u.takeWhile (fun c => !(pyIsSpace c)) = u :=
    List.takeWhile_eq_self_iff.mpr (fun a ha => by simp [husp a ha])
  have hue : u.isEmpty = false := by
    cases u with
    | nil => exact absurd rfl hu1
    | cons c l => rfl
  unfold reMatchChunk
  simp only [htake, hds, Bool.false_eq_true, if_false, hdrop, hrest, htu, hue]

theorem chunk_bytes_space_unit (n : Nat) (u : String) (hu1 : u.data ≠ [])
    (husp : ∀ c ∈ u.data, pyIsSpace c = false)
    (hud : ∀ c ∈ u.data, c ≠ '.') :
    chunk_bytes (Nat.repr n ++ " " ++ u) =
      chunkResolve (Nat.repr n ++ " " ++ u) "byte" n u := by
  have hdata : (Nat.repr n ++ " " ++ u).data = (Nat.repr n).data ++ ' ' :: u.data := by
    show ((Nat.repr n).data ++ [' ']) ++ u.data = (Nat.repr n).data ++ ' ' :: u.data
    simp
  have hnd : pyIsDigitStr ((Nat.repr n).data ++ ' ' :: u.data) = false := by
    unfold pyIsDigitStr
    have hall : ((Nat.repr n).data ++ ' ' :: u.data).all Char.isDigit = false := by
      rw [Bool.eq_false_iff]
      intro hall
      have := List.all_eq_true.mp hall ' ' (by simp)
      exact absurd this (by decide)
    rw [hall, Bool.and_false]
  have hdot : ((Nat.repr n).data ++ ' ' :: u.data).contains '.' = false := by
    rw [Bool.eq_false_iff]
    intro hmem
    have hm : '.' ∈ (Nat.repr n).data ++ ' ' :: u.data := List.elem_iff.mp hmem
    rcases List.mem_append.mp hm with h | h
    · have := List.all_eq_true.mp (repr_all_digits n) '.' h
      exact absurd this (by decide)
    · rcases List.mem_cons.mp h with h | h
      · exact absurd h (by decide)
      · exact hud '.' h rfl
  have hre := reMatchChunk_decomp (Nat.repr n).data u.data (repr_ne_nil n)
    (repr_all_digits n) hu1 husp
  unfold chunk_bytes chunk_bytes_full
  rw [hdata, hnd]
  simp only [Bool.false_eq_true, if_false]
  rw [hdot]
  simp only [Bool.false_eq_true, if_false]
  rw [hre]
  simp only [digitsToNat_repr]

/-! ## Helper lemmas: the retry loop and the benign preflight -/

theorem chunk_threshold_val : chunk_bytes DEFAULTS_chunk_threshold = .ok 52428800 := rfl

theorem backoffDelays_succ (d n : Nat) :
    backoffDelays d (n + 1) = d :: backoffDelays (d * 2) n := by
  unfold backoffDelays
  rw [List.range_succ_eq_map]
  simp only [List.map_cons, List.map_map, pow_zero, mul_one]
  congr 1
  apply List.map_congr_left
  intro i _
  simp only [Function.comp_apply, pow_succ]
  ring

theorem retryLoop_succeeds (fails : Nat → Bool) (N : Nat) :
    ∀ (attempt remaining interval : Nat) (last : PyErr), N < remaining →
    (∀ i, i < N → fails (attempt + i) = true) → fails (attempt + N) = false →
    (retryLoop fails attempt remaining interval last).1.filterMap evSleepDur =
      backoffDelays interval N ∧
    (retryLoop fails attempt remaining interval last).2 = .ok () := by
  induction N with
  | zero =>
    intro attempt remaining interval last hrem hf hs
    obtain ⟨r, rfl⟩ : ∃ r, remaining = r + 1 := ⟨remaining - 1, by omega⟩
    have h0 : fails attempt = false := by simpa using hs
    simp [retryLoop, h0, evSleepDur, backoffDelays]
  | succ N ih =>
    intro attempt remaining interval last hrem hf hs
    obtain ⟨r, rfl⟩ : ∃ r, remaining = r + 1 := ⟨remaining - 1, by omega⟩
    have h0 : fails attempt = true := by simpa using hf 0 (Nat.succ_pos N)
    have ihh := ih (attempt + 1) r (interval * 2) (.uploadExc attempt) (by omega)
      (fun i hi => by
        have := hf (i + 1) (by omega)
        simpa [Nat.add_assoc, Nat.add_comm 1 i] using this)
      (by
        have := hs
        simpa [Nat.add_assoc, Nat.add_comm 1 N] using this)
    simp only [retryLoop, h0, if_true, List.filterMap_cons, evSleepDur]
    refine ⟨?_, ihh.2⟩
    rw [ihh.1, backoffDelays_succ]

theorem retryLoop_all_fail (fails : Nat → Bool) :
    ∀ (remaining attempt interval : Nat) (last : PyErr),
    (∀ i, i < remaining → fails (attempt + i) = true) →
    (retryLoop fails attempt remaining interval last).1.filterMap evSleepDur =
      backoffDelays interval remaining ∧
    (retryLoop fails attempt remaining interval last).2 =
      .error (if remaining = 0 then last else .uploadExc (attempt + remaining - 1)) := by
  intro remaining
  induction remaining with
  | zero =>
    intro attempt interval last _
    simp [retryLoop, backoffDelays]
  | succ r ih =>
    intro attempt interval last hf
    have h0 : fails attempt = true := by simpa using hf 0 (Nat.succ_pos r)
    have ihh := ih (attempt + 1) (interval * 2) (.uploadExc attempt)
      (fun i hi => by
        have := hf (i + 1) (by omega)
        simpa [Nat.add_assoc, Nat.add_comm 1 i] using this)
    simp only [retryLoop, h0, if_true, List.filterMap_cons, evSleepDur]
    refine ⟨?_, ?_⟩
    · rw [ihh.1, backoffDelays_succ]
    · rw [ihh.2]
      by_cases hr : r = 0
      · subst hr; simp
      · rw [if_neg hr, if_neg (by omega)]
        have harith : attempt + 1 + r - 1 = attempt + (r + 1) - 1 := by omega
        rw [harith]

/-- When the split string parses, the destination URL has scheme `"s3"`, the
bucket probe succeeds, and the object probe allows the upload to proceed,
`main` reduces to its retry loop. -/
theorem mainRun_benign (srcName dest : String) (np : Nat) (force : Bool) (chunk : String)
    (rr sec v q : Bool) (max_tries : Int) (retry_sleep : Nat) (env : Env)
    (cs : Nat) (r : SplitResult)
    (hc : chunk_bytes chunk = .ok cs)
    (hu : urlsplit dest = .ok r) (hs : r.scheme = "s3")
    (hb : env.bucketError = none)
    (ho : env.objectProbe = .noSuchKey ∨ (env.objectProbe = .keyExists ∧ force = true)) :
    mainRun srcName dest np force chunk rr sec max_tries v q retry_sleep env =
      retryLoop env.uploadFails 0 max_tries.toNat retry_sleep genericRetryError := by
  have hthr : chunk_bytes DEFAULTS_chunk_threshold = .ok 52428800 := chunk_threshold_val
  rcases ho with ho | ⟨ho, hforce⟩
  · simp [mainRun, hc, hu, hs, hb, ho, uploadPhase, hthr]
  · simp [mainRun, hc, hu, hs, hb, ho, hforce, uploadPhase, hthr]

/-! ## Helper lemmas: the resolved key and leading slashes -/

theorem beginsWithSlash_basename (s : String) : beginsWithSlash (basename s) = false := by
  unfold basename beginsWithSlash
  cases h : (s.data.reverse.takeWhile (· != '/')).reverse with
  | nil => simp [h]
  | cons c l =>
    simp only [h]
    have hc : c ∈ s.data.reverse.takeWhile (· != '/') := by
      have hm : c ∈ (s.data.reverse.takeWhile (· != '/')).reverse := by
        rw [h]; exact List.mem_cons_self c l
      simpa using hm
    have := List.mem_takeWhile_imp hc
    simpa using this

theorem beginsWithSlash_lstrip (s : String) : beginsWithSlash (lstripSlash s) = false := by
  unfold lstripSlash beginsWithSlash
  cases h : s.data.dropWhile (· == '/') with
  | nil => simp [h]
  | cons c l =>
    simp only [h]
    have hh := List.head?_dropWhile_not (· == '/') s.data
    rw [h] at hh
    simpa using hh

/-! ## Claim C1 -/

/-- C1 (amended): for every destination URI accepted by `main` (scheme
`"s3"`) and every source file name, the resolved object key follows the
three-way case split of source lines 192-202: path empty or `"/"` gives the
source base name (no leading `"/"`); a path ending in `"/"` gives
`os.path.join(path, basename)`, which KEEPS the path's leading `"/"`
(refuting the claim's "never begins with a slash" — see
`C1_counterexample`); any other path is taken with all leading `"/"`
stripped (no leading `"/"`). -/
theorem C1_key_resolution (dest srcName : String) (r : SplitResult)
    (hu : urlsplit dest = .ok r) (hs : r.scheme = "s3") :
    mainResolvedKey dest srcName = .ok (resolveKey r.path srcName) ∧
    ((r.path = "" ∨ r.path = "/") →
      resolveKey r.path srcName = basename srcName ∧
      beginsWithSlash (resolveKey r.path srcName) = false) ∧
    (¬(r.path = "" ∨ r.path = "/") → pyEndsWith r.path "/" = true →
      resolveKey r.path srcName = pyJoin r.path (basename srcName)) ∧
    (¬(r.path = "" ∨ r.path = "/") → pyEndsWith r.path "/" = false →
      resolveKey r.path srcName = lstripSlash r.path ∧
      beginsWithSlash (resolveKey r.path srcName) = false) := by
  refine ⟨by simp [mainResolvedKey, hu, hs], ?_, ?_, ?_⟩
  · intro hp
    have hk : resolveKey r.path srcName = basename srcName := by
      simp [resolveKey, hp]
    exact ⟨hk, by rw [hk]; exact beginsWithSlash_basename srcName⟩
  · intro hp hse
    simp [resolveKey, hp, hse]
  · intro hp hse
    have hk : resolveKey r.path srcName = lstripSlash r.path := by
      simp [resolveKey, hp, hse]
    exact ⟨hk, by rw [hk]; exact beginsWithSlash_lstrip r.path⟩

/-- C1 counterexample: the URI `s3://bucket/dir/` is accepted by `main`
(scheme `"s3"`), its path ends in `"/"`, and the resolved key
`"/dir/f.txt"` DOES begin with `"/"`, contradicting the claim that the
resulting key never has a leading `"/"`. -/
theorem C1_counterexample :
    mainResolvedKey "s3://bucket/dir/" "f.txt" = .ok "/dir/f.txt" ∧
    beginsWithSlash "/dir/f.txt" = true := ⟨rfl, rfl⟩

/-- C1 witness: the amended theorem applied to the accepted URI
`s3://bucket/a/b/obj` (full-path case: key has no leading slash). -/
theorem C1_witness :
    beginsWithSlash (resolveKey "/a/b/obj" "f.txt") = false :=
  ((C1_key_resolution "s3://bucket/a/b/obj" "f.txt" ⟨"s3", "bucket", "/a/b/obj", "", ""⟩
      rfl rfl).2.2.2 (by decide) rfl).2

/-! ## Claim C2 -/

/-- C2: for every `maxAttempts ≥ 1`, initial delay `d`, and failure count
`N < maxAttempts`, if the first `N` upload attempts fail and attempt `N+1`
succeeds, then `main` (run past a successful preflight) performs exactly
the sleeps `d, 2d, 4d, …, d·2^(N-1)` in that order and returns success. -/
theorem C2_retry_backoff (srcName dest chunk : String) (np : Nat)
    (force rr sec v q : Bool) (max_tries : Int) (d N : Nat) (env : Env)
    (cs : Nat) (r : SplitResult)
    (hc : chunk_bytes chunk = .ok cs)
    (hu : urlsplit dest = .ok r) (hs : r.scheme = "s3")
    (hb : env.bucketError = none)
    (ho : env.objectProbe = .noSuchKey ∨ (env.objectProbe = .keyExists ∧ force = true))
    (hmt : 1 ≤ max_tries) (hN : (N : Int) < max_tries)
    (hf : ∀ i, i < N → env.uploadFails i = true)
    (hsucc : env.uploadFails N = false) :
    (mainRun srcName dest np force chunk rr sec max_tries v q d env).1.filterMap
      evSleepDur = backoffDelays d N ∧
    (mainRun srcName dest np force chunk rr sec max_tries v q d env).2 = .ok () := by
  rw [mainRun_benign srcName dest np force chunk rr sec v q max_tries d env cs r
    hc hu hs hb ho]
  exact retryLoop_succeeds env.uploadFails N 0 max_tries.toNat d genericRetryError
    (by omega) (fun i hi => by simpa using hf i hi) (by simpa using hsucc)

/-- C2 witness: one failing attempt then success, with `maxAttempts = 3`
and `d = 10`: one sleep of 10 seconds, then success. -/
theorem C2_witness :
    (mainRun "f.txt" "s3://bucket/key" 2 false "50 MiB" false true 3 false false 10
      ⟨none, .noSuchKey, fun i => decide (i < 1)⟩).1.filterMap evSleepDur =
      backoffDelays 10 1 ∧
    (mainRun "f.txt" "s3://bucket/key" 2 false "50 MiB" false true 3 false false 10
      ⟨none, .noSuchKey, fun i => decide (i < 1)⟩).2 = .ok () :=
  C2_retry_backoff "f.txt" "s3://bucket/key" "50 MiB" 2 false false true false false
    3 10 1 ⟨none, .noSuchKey, fun i => decide (i < 1)⟩ 52428800
    ⟨"s3", "bucket", "/key", "", ""⟩ rfl rfl rfl rfl (Or.inl rfl)
    (by norm_num) (by norm_num)
    (fun i hi => by simp only [decide_eq_true_eq]; omega) rfl

/-! ## Claim C3 -/

/-- C3: if all `maxAttempts ≥ 1` attempts fail, `main` raises the error of
the last attempt (attempt `maxAttempts - 1`, 0-based); and if the loop is
exhausted without any attempt having run (only possible when
`maxAttempts ≤ 0`), the pre-built generic `RuntimeError` is raised. -/
theorem C3_exhaustion (srcName dest chunk : String) (np : Nat)
    (force rr sec v q : Bool) (max_tries : Int) (d : Nat) (env : Env)
    (cs : Nat) (r : SplitResult)
    (hc : chunk_bytes chunk = .ok cs)
    (hu : urlsplit dest = .ok r) (hs : r.scheme = "s3")
    (hb : env.bucketError = none)
    (ho : env.objectProbe = .noSuchKey ∨ (env.objectProbe = .keyExists ∧ force = true)) :
    (1 ≤ max_tries → (∀ i : Nat, (i : Int) < max_tries → env.uploadFails i = true) →
      (mainRun srcName dest np force chunk rr sec max_tries v q d env).2 =
        .error (.uploadExc (max_tries.toNat - 1))) ∧
    (max_tries ≤ 0 →
      mainRun srcName dest np force chunk rr sec max_tries v q d env =
        ([], .error (.runtimeError
          "Upload and retries failed, but without raising an exception?!"))) := by
  constructor
  · intro hmt hf
    rw [mainRun_benign srcName dest np force chunk rr sec v q max_tries d env cs r
      hc hu hs hb ho]
    have hall := retryLoop_all_fail env.uploadFails max_tries.toNat 0 d genericRetryError
      (fun i hi => by simpa using hf i (by omega))
    rw [hall.2, if_neg (by omega)]
    have harith : 0 + max_tries.toNat - 1 = max_tries.toNat - 1 := by omega
    rw [harith]
  · intro hmt
    rw [mainRun_benign srcName dest np force chunk rr sec v q max_tries d env cs r
      hc hu hs hb ho]
    have h0 : max_tries.toNat = 0 := by omega
    rw [h0]
    rfl

/-- C3 witness: two attempts, both failing: the raised error is that of
attempt 1 (the second and last attempt). -/
theorem C3_witness :
    (mainRun "f.txt" "s3://bucket/key" 2 false "50 MiB" false true 2 false false 10
      ⟨none, .noSuchKey, fun _ => true⟩).2 = .error (.uploadExc 1) :=
  (C3_exhaustion "f.txt" "s3://bucket/key" "50 MiB" 2 false false true false false
    2 10 ⟨none, .noSuchKey, fun _ => true⟩ 52428800
    ⟨"s3", "bucket", "/key", "", ""⟩ rfl rfl rfl rfl (Or.inl rfl)).1
    (by norm_num) (fun i hi => rfl)

/-! ## Claim C6 -/

/-- C6 counterexample: with `maxAttempts = 1` and the single attempt
failing, `main` performs one sleep (of the full 10 seconds, after the last
attempt, just before raising) — not `maxAttempts − 1 = 0` sleeps as the
claim states. -/
theorem C6_counterexample :
    (mainRun "f.txt" "s3://bucket/key" 2 false "50 MiB" false true 1 false false 10
      ⟨none, .noSuchKey, fun _ => true⟩).1 =
      [.uploadAttempt 0, .sleep 10] ∧
    ([Event.uploadAttempt 0, Event.sleep 10].filterMap evSleepDur).length ≠ 1 - 1 :=
  ⟨rfl, by decide⟩

/-- C6 (amended): when all `maxAttempts ≥ 1` attempts fail, `main` performs
exactly `maxAttempts` sleeps — one after EVERY failed attempt, including
one after the last attempt just before the final error is raised — with
durations `d, 2d, …, d·2^(maxAttempts-1)`. -/
theorem C6_sleep_after_every_failure (srcName dest chunk : String) (np : Nat)
    (force rr sec v q : Bool) (max_tries : Int) (d : Nat) (env : Env)
    (cs : Nat) (r : SplitResult)
    (hc : chunk_bytes chunk = .ok cs)
    (hu : urlsplit dest = .ok r) (hs : r.scheme = "s3")
    (hb : env.bucketError = none)
    (ho : env.objectProbe = .noSuchKey ∨ (env.objectProbe = .keyExists ∧ force = true))
    (hmt : 1 ≤ max_tries)
    (hf : ∀ i : Nat, i < max_tries.toNat → env.uploadFails i = true) :
    (mainRun srcName dest np force chunk rr sec max_tries v q d env).1.filterMap
      evSleepDur = backoffDelays d max_tries.toNat ∧
    (backoffDelays d max_tries.toNat).length = max_tries.toNat ∧
    (mainRun srcName dest np force chunk rr sec max_tries v q d env).2 =
      .error (.uploadExc (max_tries.toNat - 1)) := by
  rw [mainRun_benign srcName dest np force chunk rr sec v q max_tries d env cs r
    hc hu hs hb ho]
  have hall := retryLoop_all_fail env.uploadFails max_tries.toNat 0 d genericRetryError
    (fun i hi => by simpa using hf i hi)
  refine ⟨hall.1, by simp [backoffDelays], ?_⟩
  rw [hall.2, if_neg (by omega)]
  have harith : 0 + max_tries.toNat - 1 = max_tries.toNat - 1 := by omega
  rw [harith]

/-- C6 witness: the amended theorem at `maxAttempts = 2`, `d = 10`: two
sleeps of 10 and 20 seconds. -/
theorem C6_witness :
    (mainRun "f.txt" "s3://bucket/key" 2 false "50 MiB" false true 2 false false 10
      ⟨none, .noSuchKey, fun _ => true⟩).1.filterMap evSleepDur =
      backoffDelays 10 2 ∧
    (backoffDelays 10 2).length = (2 : Int).toNat ∧
    (mainRun "f.txt" "s3://bucket/key" 2 false "50 MiB" false true 2 false false 10
      ⟨none, .noSuchKey, fun _ => true⟩).2 = .error (.uploadExc 1) :=
  C6_sleep_after_every_failure "f.txt" "s3://bucket/key" "50 MiB" 2 false false true
    false false 2 10 ⟨none, .noSuchKey, fun _ => true⟩ 52428800
    ⟨"s3", "bucket", "/key", "", ""⟩ rfl rfl rfl rfl (Or.inl rfl)
    (by norm_num) (fun i hi => rfl)

/-! ## Claim C9 -/

/-- C9: with `max_tries ≤ 0` (the loop body never runs), `main` performs no
upload attempt and no sleep, and raises the pre-built generic
`RuntimeError` — the "should not happen" error is reachable from the
public interface. -/
theorem C9_zero_tries (srcName dest chunk : String) (np : Nat)
    (force rr sec v q : Bool) (max_tries : Int) (d : Nat) (env : Env)
    (cs : Nat) (r : SplitResult)
    (hc : chunk_bytes chunk = .ok cs)
    (hu : urlsplit dest = .ok r) (hs : r.scheme = "s3")
    (hb : env.bucketError = none)
    (ho : env.objectProbe = .noSuchKey ∨ (env.objectProbe = .keyExists ∧ force = true))
    (hmt : max_tries ≤ 0) :
    mainRun srcName dest np force chunk rr sec max_tries v q d env =
      ([], .error (.runtimeError
        "Upload and retries failed, but without raising an exception?!")) := by
  rw [mainRun_benign srcName dest np force chunk rr sec v q max_tries d env cs r
    hc hu hs hb ho]
  have h0 : max_tries.toNat = 0 := by omega
  rw [h0]
  rfl

/-- C9 witness: `max_tries = 0` yields the empty trace (no attempt, no
sleep) and the generic pre-built `RuntimeError`. -/
theorem C9_witness :
    mainRun "f.txt" "s3://bucket/key" 2 false "50 MiB" false true 0 false false 10
      ⟨none, .noSuchKey, fun _ => true⟩ =
      ([], .error (.runtimeError
        "Upload and retries failed, but without raising an exception?!")) :=
  C9_zero_tries "f.txt" "s3://bucket/key" "50 MiB" 2 false false true false false
    0 10 ⟨none, .noSuchKey, fun _ => true⟩ 52428800
    ⟨"s3", "bucket", "/key", "", ""⟩ rfl rfl rfl rfl (Or.inl rfl) (by norm_num)

/-! ## Claim C4 -/

/-- C4: `chunk_bytes` maps `"50 MiB"` to exactly `50·1024²`, `"50MB"` to
`50·1000²`, a bare `"50"` (default unit `byte`, default multiplier `MiB`)
to `50·1024²`, and any expression containing a decimal point fails with the
invalid-format `ValueError`. -/
theorem C4_size_expressions :
    chunk_bytes "50 MiB" = .ok (50 * 1024 ^ 2) ∧
    chunk_bytes "50MB" = .ok (50 * 1000 ^ 2) ∧
    chunk_bytes "50" = .ok (50 * 1024 ^ 2) ∧
    (∀ s : String, s.data.contains '.' = true →
      chunk_bytes s = .error (.valueError ("Split string must use whole numbers!: " ++ s))) := by
  refine ⟨rfl, rfl, rfl, ?_⟩
  intro s hdot
  have hnd : pyIsDigitStr s.data = false := by
    unfold pyIsDigitStr
    have hm : '.' ∈ s.data := List.elem_iff.mp hdot
    have hall : s.data.all Char.isDigit = false := by
      rw [Bool.eq_false_iff]
      intro hall
      exact absurd (List.all_eq_true.mp hall '.' hm) (by decide)
    rw [hall, Bool.and_false]
  unfold chunk_bytes chunk_bytes_full
  rw [hnd]
  simp only [Bool.false_eq_true, if_false]
  rw [hdot]
  simp

/-- C4 witness: the decimal-point clause applied at `"50.5"`. -/
theorem C4_witness :
    chunk_bytes "50.5" =
      .error (.valueError "Split string must use whole numbers!: 50.5") :=
  C4_size_expressions.2.2.2 "50.5" rfl

/-! ## Claim C5 -/

/-- C5 counterexample: with split expression `"1 MiB"`, the transfer
configuration built by `main` has `multipart_threshold = 52428800` (from
the fixed default `DEFAULTS["chunk_threshold"] = "50 MiB"`) but
`multipart_chunksize = 1048576 = chunk_bytes "1 MiB"`; they are NOT
equal, contradicting the claim that the threshold always equals the
configured part size. -/
theorem C5_counterexample :
    mainConfig "1 MiB" 2 = .ok ⟨52428800, 1048576, 2⟩ ∧
    chunk_bytes "1 MiB" = .ok 1048576 ∧
    (52428800 : Nat) ≠ 1048576 := ⟨rfl, rfl, by norm_num⟩

/-- C5 (amended): the multipart threshold built by `main` is always
`chunk_bytes "50 MiB" = 52428800`, independent of the split expression
`s`; the chunk size is `chunk_bytes s`; the two coincide exactly when
`chunk_bytes s = 52428800` (as with the default split `"50 MiB"`). -/
theorem C5_threshold_fixed (chunk : String) (np cs : Nat)
    (hc : chunk_bytes chunk = .ok cs) :
    mainConfig chunk np = .ok ⟨52428800, cs, np⟩ ∧
    ((⟨52428800, cs, np⟩ : TransferConfig).multipart_threshold =
       (⟨52428800, cs, np⟩ : TransferConfig).multipart_chunksize ↔ cs = 52428800) := by
  refine ⟨?_, ?_⟩
  · simp [mainConfig, hc, chunk_threshold_val]
  · exact ⟨fun h => h.symm, fun h => h.symm⟩

/-- C5 witness: with the default split `"50 MiB"` the threshold and chunk
size happen to coincide. -/
theorem C5_witness :
    mainConfig "50 MiB" 2 = .ok ⟨52428800, 52428800, 2⟩ :=
  (C5_threshold_fixed "50 MiB" 2 52428800 rfl).1

/-! ## Claim C7 -/

/-- C7: noninterference of the two compatibility flags: for every input and
environment, `main` behaves identically whatever the values of
`reduced_redundancy` and `secure` — the parameters are accepted and
ignored (source lines 147-150, 160-161; `use_ssl=True` is hard-coded at
line 182). -/
theorem C7_inert_flags (srcName dest : String) (np : Nat) (force : Bool) (chunk : String)
    (rr rr' sec sec' : Bool) (max_tries : Int) (v q : Bool) (rs : Nat) (env : Env) :
    mainRun srcName dest np force chunk rr sec max_tries v q rs env =
      mainRun srcName dest np force chunk rr' sec' max_tries v q rs env := rfl

/-! ## Claim C8 -/

/-- Two unit tokens that pass the whitespace/dot side conditions and
resolve to the same multiplier give equal `chunk_bytes` results on
`count ++ " " ++ token` inputs. -/
theorem chunk_bytes_unit_eq (n : Nat) (u v : String)
    (hu1 : u.data ≠ []) (husp : ∀ c ∈ u.data, pyIsSpace c = false)
    (hud : ∀ c ∈ u.data, c ≠ '.')
    (hv1 : v.data ≠ []) (hvsp : ∀ c ∈ v.data, pyIsSpace c = false)
    (hvd : ∀ c ∈ v.data, c ≠ '.')
    (hres : ∀ s t : String, chunkResolve s "byte" n u = chunkResolve t "byte" n v) :
    chunk_bytes (Nat.repr n ++ " " ++ u) = chunk_bytes (Nat.repr n ++ " " ++ v) := by
  rw [chunk_bytes_space_unit n u hu1 husp hud, chunk_bytes_space_unit n v hv1 hvsp hvd]
  exact hres _ _

/-- C8: for every whole-number count `n` and every unit name `u` of the
unit table ending in `"byte"`, the plural form `"n us"` parses identically
to the singular `"n u"` (the trailing `'s'` is chopped before lookup). -/
theorem C8_plural_units (n : Nat) (u : String) (mult : Nat)
    (hmem : (u, mult) ∈ UNIT_MULTIPLIERS) (hbyte : pyEndsWith u "byte" = true) :
    chunk_bytes (Nat.repr n ++ " " ++ (u ++ "s")) =
      chunk_bytes (Nat.repr n ++ " " ++ u) := by
  fin_cases hmem <;>
    first
      | exact absurd hbyte (by decide)
      | exact chunk_bytes_unit_eq n _ _ (by decide) (by decide) (by decide)
          (by decide) (by decide) (by decide) (fun s t => rfl)

/-- C8 witness: `"3 kilobytes"` equals `"3 kilobyte"`. -/
theorem C8_witness :
    chunk_bytes (Nat.repr 3 ++ " " ++ ("kilobyte" ++ "s")) =
      chunk_bytes (Nat.repr 3 ++ " " ++ "kilobyte") :=
  C8_plural_units 3 "kilobyte" 1000 (by simp [UNIT_MULTIPLIERS]) rfl

/-! ## Claim C10 -/

/-- C10: the unit table distinguishes `"KB"` (binary, 1024) from `"kB"`
(decimal, 1000), and both hit the case-sensitive lookup before any
case-insensitive fallback: for every count `n`, `"n KB"` resolves to
`n·1024` bytes and `"n kB"` to `n·1000` bytes. -/
theorem C10_KB_vs_kB (n : Nat) :
    chunk_bytes (Nat.repr n ++ " " ++ "KB") = .ok (1024 * n) ∧
    chunk_bytes (Nat.repr n ++ " " ++ "kB") = .ok (1000 * n) := by
  constructor
  · rw [chunk_bytes_space_unit n "KB" (by decide) (by decide) (by decide)]
    show Except.ok (1 * (1024 * n)) = Except.ok (1024 * n)
    rw [one_mul]
  · rw [chunk_bytes_space_unit n "kB" (by decide) (by decide) (by decide)]
    show Except.ok (1 * (1000 * n)) = Except.ok (1000 * n)
    rw [one_mul]

end S3MpUpload
